import Mathlib

/-!
Verification of the WhatsApp webhook relay service (`src/main.py`).

The embedding models the core logic of the service as pure Lean functions:

* text is represented as `List Char` (Python `str`);
* the Session Store (module-level dict `_memory`) is an association list
  from conversation keys to histories;
* a Turn (a Python dict `\x7b"role": ..., "parts": [...]\x7d`) is a structure
  with a role string and a list of part strings;
* the opaque remote model call (`chat.send_message` plus `result.text`) is
  a parameter of type `GeminiResult`: either the text the adapter returned
  or the message of the exception it raised;
* the opaque Twilio validator (`validator.validate(...)`) is a boolean
  parameter (its verdict), consulted only when the surrounding code
  actually calls it;
* environment configuration is a `Config` record.
-/

/-- Python `str.strip()` with no argument: remove leading and trailing
whitespace.  Modelled over `List Char` with `Char.isWhitespace`. -/
def pyStrip (s : List Char) : List Char :=
  ((s.dropWhile Char.isWhitespace).reverse.dropWhile Char.isWhitespace).reverse

/-- One conversation turn, as built at `src/main.py:122-124`:
`\x7b"role": "user"|"model", "parts": [text]\x7d`. -/
structure Turn where
  role : List Char
  parts : List (List Char)
deriving DecidableEq, Repr

/-- The Session Store `_memory : Dict[str, List[dict]]` (src/main.py:33),
modelled as an association list with unique keys (Python dict). -/
def Store := List (List Char × List Turn)
deriving DecidableEq, Repr

/-- `_memory.get(k, [])` (src/main.py:106). -/
def storeGet (s : Store) (k : List Char) : List Turn :=
  match s with
  | [] => []
  | (k', v) :: rest => if k' = k then v else storeGet rest k

/-- `_memory[k] = v` (src/main.py:127): replace the binding if the key is
present, otherwise append a new binding (Python dict insertion order). -/
def storeSet (s : Store) (k : List Char) (v : List Turn) : Store :=
  match s with
  | [] => [(k, v)]
  | (k', v') :: rest =>
      if k' = k then (k, v) :: rest else (k', v') :: storeSet rest k v

/-- `_trim_history` (src/main.py:47-51):
`if max_entries <= 0: return []` then `return history[-max_entries:]`.
Python `history[-n:]` for `n > 0` is the suffix of the last
`min(n, len(history))` elements, i.e. dropping `len - n` from the front. -/
def trim_history (history : List Turn) (max_entries : Int) : List Turn :=
  if max_entries ≤ 0 then []
  else history.drop (history.length - max_entries.toNat)

/-- A word character for the purposes of the regex `\b` boundary.
Python `re` with a `str` pattern uses Unicode-aware `\w`; the markers and
all texts of interest here use ASCII and Cyrillic, so we model `\w` as
ASCII alphanumerics, underscore, and the Cyrillic block U+0400-U+04FF. -/
def isWordChar (c : Char) : Bool :=
  c.isAlphanum || c = '_' || (0x400 ≤ c.toNat && c.toNat ≤ 0x4FF)

/-- Case folding for `re.IGNORECASE`, for the alphabets in play:
ASCII `A-Z` via `Char.toLower`, Cyrillic `А-Я` (U+0410-U+042F) by +0x20,
and `Ё` (U+0401) to `ё` (U+0451). -/
def lowerChar (c : Char) : Char :=
  if 0x410 ≤ c.toNat ∧ c.toNat ≤ 0x42F then Char.ofNat (c.toNat + 0x20)
  else if c.toNat = 0x401 then Char.ofNat 0x451
  else c.toLower

/-- Lowercase a whole text. -/
def lowerText (s : List Char) : List Char := s.map lowerChar

/-- The alternatives of `SENSITIVE_PATTERN` (src/main.py:36):
`\b(cvv|password|2fa|code|pin|пароль|код)\b`, `re.IGNORECASE`. -/
def markers : List (List Char) :=
  [("cvv".toList), ("password".toList), ("2fa".toList), ("code".toList),
   ("pin".toList), ("пароль".toList), ("код".toList)]

/-- A case-insensitive occurrence of `m` at position `i` of `text`,
without any boundary requirement. -/
def occursAt (text : List Char) (i : Nat) (m : List Char) : Bool :=
  ((lowerText text).drop i).take m.length = m

/-- A whole-word match of marker `m` at position `i` of `text`: the marker
occurs there case-insensitively, and a `\b` boundary holds on each side.
All marker characters are word characters, so `\b` before the marker means
"start of text or the previous character is not a word character", and
symmetrically after it. -/
def matchesAt (text : List Char) (i : Nat) (m : List Char) : Bool :=
  occursAt text i m
  && (i = 0 || (match text[i-1]? with
                | some c => !(isWordChar c)
                | none => true))
  && (match text[i + m.length]? with
      | some c => !(isWordChar c)
      | none => true)

/-- `SENSITIVE_PATTERN.search(body)` viewed as a boolean
(src/main.py:100): some marker matches as a whole word somewhere. -/
def sensitive_search (text : List Char) : Bool :=
  (List.range (text.length + 1)).any fun i =>
    markers.any fun m => matchesAt text i m

/-- `FALLBACK_MESSAGE` (src/main.py:37). -/
def FALLBACK_MESSAGE : List Char :=
  "Мои мозговые жуки спят (ошибка API), попробуй позже.".toList

/-- `SAFETY_MESSAGE` (src/main.py:38). -/
def SAFETY_MESSAGE : List Char :=
  "В целях безопасности я не обрабатываю сообщения с паролями или кодами.".toList

/-- The fixed greeting for an empty message (src/main.py:97). -/
def GREETING : List Char := "Привет! Я слушаю.".toList

/-- The configuration-error variant of the fallback (src/main.py:135). -/
def CONFIG_ERROR_MESSAGE : List Char :=
  "Ошибка конфигурации: Проверьте GOOGLE_API_KEY.".toList

/-- Environment configuration (src/main.py:18-30). -/
structure Config where
  googleApiKey : List Char
  twilioAuthToken : List Char
  maxHistory : Int
  requireTwilioSignature : Bool
deriving DecidableEq, Repr

/-- Python `needle in haystack` substring test, used for
`"API_KEY" in str(e)` (src/main.py:134). -/
def containsSub (haystack needle : List Char) : Bool :=
  (List.range (haystack.length + 1)).any fun i =>
    (haystack.drop i).take needle.length = needle

/-- `_validate_twilio_signature` (src/main.py:54-63): the header value
(`""` when the header is absent, per `headers.get(..., "")`), the
configured auth token, and the opaque validator's verdict.  Returns
`false` unconditionally when the header is empty or the token is
unconfigured; otherwise defers to the validator. -/
def validate_twilio_signature (signature : List Char) (authToken : List Char)
    (verdict : Bool) : Bool :=
  if signature.isEmpty || authToken.isEmpty then false else verdict

/-- The outcome of `chat.send_message(body)` followed by `result.text`:
either the returned text, or the message of the raised exception. -/
inductive GeminiResult where
  | ok (text : List Char)
  | error (msg : List Char)
deriving DecidableEq, Repr

/-- The inbound request as the handler reads it (src/main.py:84-85, 56):
the optional `From` and `Body` form fields and the `X-Twilio-Signature`
header (`[]` when absent, matching `headers.get(..., "")`). -/
structure WebhookRequest where
  fromField : Option (List Char)
  bodyField : Option (List Char)
  signature : List Char
deriving DecidableEq, Repr

/-- What the handler produced: the HTTP status, the reply text handed to
the TwiML encoder (or the literal `Forbidden` body for a 403), the Session
Store after the request, and whether the remote model was invoked. -/
structure HandlerOutcome where
  status : Nat
  body : List Char
  store : Store
  remoteCalled : Bool
deriving DecidableEq, Repr

/-- `whatsapp_webhook` (src/main.py:78-137).  The store is threaded
explicitly; the opaque Twilio verdict and the remote-call outcome are
parameters.  Mirrors the source line by line: signature gate, empty-body
gate, sensitive gate, then the try-block with success and except paths. -/
def whatsapp_webhook (cfg : Config) (store : Store) (req : WebhookRequest)
    (sigVerdict : Bool) (gemini : GeminiResult) : HandlerOutcome :=
  let from_number := req.fromField.getD ("unknown".toList)
  let body := pyStrip (req.bodyField.getD [])
  if cfg.requireTwilioSignature
     && !(validate_twilio_signature req.signature cfg.twilioAuthToken sigVerdict) then
    ⟨403, ("Forbidden".toList), store, false⟩
  else if body.isEmpty then
    ⟨200, GREETING, store, false⟩
  else if sensitive_search body then
    ⟨200, SAFETY_MESSAGE, store, false⟩
  else
    match gemini with
    | .ok text =>
        let reply_text := pyStrip text
        let current_history := storeGet store from_number
        let new_history := current_history
          ++ [⟨("user".toList), [body]⟩, ⟨("model".toList), [reply_text]⟩]
        ⟨200, reply_text,
         storeSet store from_number (trim_history new_history cfg.maxHistory),
         true⟩
    | .error msg =>
        if containsSub msg ("API_KEY".toList) || cfg.googleApiKey.isEmpty then
          ⟨200, CONFIG_ERROR_MESSAGE, store, true⟩
        else
          ⟨200, FALLBACK_MESSAGE, store, true⟩

/-- The auth gate lets the request through: verification is disabled, or
the validator accepted it. -/
def authPasses (cfg : Config) (req : WebhookRequest) (verdict : Bool) : Prop :=
  cfg.requireTwilioSignature = false
  ∨ validate_twilio_signature req.signature cfg.twilioAuthToken verdict = true

/-- Shared fixtures for concrete evaluations. -/
def cfgD : Config := ⟨("k".toList), ("t".toList), 10, false⟩

def reqHello : WebhookRequest := ⟨some ("+1555".toList), some ("hello".toList), []⟩

def turnU1 : Turn := ⟨("user".toList), [("q1".toList)]⟩

def turnM1 : Turn := ⟨("model".toList), [("a1".toList)]⟩

theorem storeGet_storeSet_self (s : Store) (k : List Char) (v : List Turn) :
    storeGet (storeSet s k v) k = v := by
  induction s with
  | nil => simp [storeSet, storeGet]
  | cons p rest ih =>
      obtain ⟨k', v'⟩ := p
      by_cases hk : k' = k
      · simp [storeSet, storeGet, hk]
      · simp [storeSet, storeGet, hk, ih]

theorem trim_history_length_le (h : List Turn) (n : Int) (hn : 0 ≤ n) :
    ((trim_history h n).length : Int) ≤ n := by
  by_cases h0 : n ≤ 0
  · have : n = 0 := le_antisymm h0 hn
    simp [trim_history, this]
  · simp only [trim_history, if_neg h0]
    rw [List.length_drop]
    have h1 : (h.length - (h.length - n.toNat) : Nat) ≤ n.toNat := by omega
    calc ((h.length - (h.length - n.toNat) : Nat) : Int)
        ≤ (n.toNat : Int) := by exact_mod_cast h1
      _ = n := Int.toNat_of_nonneg hn

theorem gate_false_of_authPasses (cfg : Config) (req : WebhookRequest) (v : Bool)
    (h : authPasses cfg req v) :
    (cfg.requireTwilioSignature
      && !(validate_twilio_signature req.signature cfg.twilioAuthToken v)) = false := by
  rcases h with h | h <;> simp [h]

example : trim_history [] 3 = [] := by decide
example : pyStrip ("  hi  ".toList) = "hi".toList := by decide
example : sensitive_search ("my password is 1234".toList) = true := by decide
example : sensitive_search ("passwordless".toList) = false := by decide
example : sensitive_search ("мой ПАРОЛЬ тут".toList) = true := by decide
example : sensitive_search ("кодекс".toList) = false := by decide
example : sensitive_search ("hello".toList) = false := by decide

/-- Helper: if `remoteCalled` is set in the outcome, the three gates must
have let the request through. -/
theorem gates_of_remoteCalled (cfg : Config) (store : Store) (req : WebhookRequest)
    (v : Bool) (g : GeminiResult)
    (h : (whatsapp_webhook cfg store req v g).remoteCalled = true) :
    (cfg.requireTwilioSignature
      && !(validate_twilio_signature req.signature cfg.twilioAuthToken v)) = false
    ∧ (pyStrip (req.bodyField.getD [])).isEmpty = false
    ∧ sensitive_search (pyStrip (req.bodyField.getD [])) = false := by
  by_cases h1 : (cfg.requireTwilioSignature
      && !(validate_twilio_signature req.signature cfg.twilioAuthToken v)) = true
  · simp [whatsapp_webhook, h1] at h
  · rw [Bool.not_eq_true] at h1
    by_cases h2 : (pyStrip (req.bodyField.getD [])).isEmpty = true
    · simp [whatsapp_webhook, h1, h2] at h
    · rw [Bool.not_eq_true] at h2
      by_cases h3 : sensitive_search (pyStrip (req.bodyField.getD [])) = true
      · simp [whatsapp_webhook, h1, h2, h3] at h
      · rw [Bool.not_eq_true] at h3
        exact ⟨h1, h2, h3⟩

/-- Helper: evaluation of the handler on the remote-failure path, once the
gates are known to pass. -/
theorem webhook_error_eq (cfg : Config) (store : Store) (req : WebhookRequest)
    (v : Bool) (msg : List Char)
    (h1 : (cfg.requireTwilioSignature
      && !(validate_twilio_signature req.signature cfg.twilioAuthToken v)) = false)
    (h2 : (pyStrip (req.bodyField.getD [])).isEmpty = false)
    (h3 : sensitive_search (pyStrip (req.bodyField.getD [])) = false) :
    whatsapp_webhook cfg store req v (.error msg) =
      if containsSub msg ("API_KEY".toList) || cfg.googleApiKey.isEmpty
      then ⟨200, CONFIG_ERROR_MESSAGE, store, true⟩
      else ⟨200, FALLBACK_MESSAGE, store, true⟩ := by
  simp [whatsapp_webhook, h1, h2, h3]

/-- Helper: evaluation of the handler on the success path, once the gates
are known to pass. -/
theorem webhook_ok_eq (cfg : Config) (store : Store) (req : WebhookRequest)
    (v : Bool) (t : List Char)
    (h1 : (cfg.requireTwilioSignature
      && !(validate_twilio_signature req.signature cfg.twilioAuthToken v)) = false)
    (h2 : (pyStrip (req.bodyField.getD [])).isEmpty = false)
    (h3 : sensitive_search (pyStrip (req.bodyField.getD [])) = false) :
    whatsapp_webhook cfg store req v (.ok t) =
      ⟨200, pyStrip t,
       storeSet store (req.fromField.getD ("unknown".toList))
         (trim_history
           (storeGet store (req.fromField.getD ("unknown".toList))
             ++ [⟨("user".toList), [pyStrip (req.bodyField.getD [])]⟩,
                 ⟨("model".toList), [pyStrip t]⟩])
           cfg.maxHistory),
       true⟩ := by
  simp [whatsapp_webhook, h1, h2, h3]

/-- C6: the Content Guard is a case-insensitive whole-word matcher.
Positive half: any text of the form `before ++ u ++ after`, where `u`
lowercases to a marker, `before` is empty or ends in a non-word
character, and `after` is empty or starts with a non-word character, is
flagged.  Negative half: a text in which every case-insensitive
occurrence of every marker has a word character glued to its left or
right (i.e. the marker appears only inside longer words) is not
flagged. -/
theorem c6_content_guard :
    (∀ before after u m : List Char, m ∈ markers → lowerText u = m →
      ((before.getLast?.all fun c => !(isWordChar c)) = true) →
      ((after.head?.all fun c => !(isWordChar c)) = true) →
      sensitive_search (before ++ u ++ after) = true)
    ∧ (∀ text : List Char,
        (∀ i, i < text.length → ∀ m, m ∈ markers → occursAt text i m = true →
          (0 < i ∧ (text[i-1]?.any isWordChar) = true)
          ∨ ((text[i + m.length]?.any isWordChar) = true)) →
        sensitive_search text = false) := by
  constructor
  · intro before after u m hm hu hb ha
    simp only [lowerText] at hu
    have hlen : u.length = m.length := by
      rw [← hu, List.length_map]
    apply List.any_eq_true.mpr
    refine ⟨before.length, List.mem_range.mpr ?_, ?_⟩
    · simp only [List.length_append]
      omega
    · apply List.any_eq_true.mpr
      refine ⟨m, hm, ?_⟩
      simp only [matchesAt, Bool.and_eq_true]
      refine ⟨⟨?_, ?_⟩, ?_⟩
      · rw [occursAt, decide_eq_true_eq]
        rw [lowerText, List.map_append, List.map_append, List.append_assoc]
        rw [show before.length = (List.map lowerChar before).length from
              (List.length_map before lowerChar).symm,
            List.drop_left, hu]
        rw [show m.length = (m : List Char).length from rfl, List.take_left]
      · by_cases hb0 : before = []
        · subst hb0
          simp
        · have hlast : before.getLast? = some (before.getLast hb0) :=
            List.getLast?_eq_getLast before hb0
          have hlpos : 0 < before.length := List.length_pos.mpr hb0
          rw [List.getElem?_append_left
                (show before.length - 1 < (before ++ u).length from by
                  rw [List.length_append]; omega),
              List.getElem?_append_left (show before.length - 1 < before.length from by omega),
              ← List.getLast?_eq_getElem?, hlast]
          rw [hlast] at hb
          simp only [Option.all] at hb
          simp [hb]
      · rw [show before.length + m.length = (before ++ u).length from by
              rw [List.length_append]; omega,
            List.getElem?_append_right (le_refl _), Nat.sub_self]
        cases after with
        | nil => simp
        | cons c cs =>
            have hw : (!(isWordChar c)) = true := by
              simpa [Option.all] using ha
            simp [hw]
  · intro text hglue
    by_contra hs
    rw [Bool.not_eq_false] at hs
    obtain ⟨i, hirange, hmark⟩ := List.any_eq_true.mp hs
    obtain ⟨m, hm, hmatch⟩ := List.any_eq_true.mp hmark
    simp only [matchesAt, Bool.and_eq_true] at hmatch
    obtain ⟨⟨hocc, hleft⟩, hright⟩ := hmatch
    have hmne : m ≠ [] := by
      have hne : ∀ m ∈ markers, m ≠ ([] : List Char) := by decide
      exact hne m hm
    have hilt : i < text.length := by
      by_contra hge
      push_neg at hge
      have hdrop : (lowerText text).drop i = [] := by
        apply List.drop_eq_nil_of_le
        rw [lowerText, List.length_map]
        exact hge
      rw [occursAt, decide_eq_true_eq, hdrop, List.take_nil] at hocc
      exact hmne hocc.symm
    rcases hglue i hilt m hm hocc with ⟨hi0, hany⟩ | hany
    · cases hc : text[i-1]? with
      | none =>
          rw [hc] at hany
          simp [Option.any] at hany
      | some c =>
          rw [hc] at hany hleft
          simp only [Option.any] at hany
          have : ¬ (i = 0) := by omega
          simp [this, hany] at hleft
    · cases hc : text[i + m.length]? with
      | none =>
          rw [hc] at hany
          simp [Option.any] at hany
      | some c =>
          rw [hc] at hany hright
          simp only [Option.any] at hany
          simp [hany] at hright

/-- Witness for C6: "my password is 1234" is flagged (standalone marker),
"passwordless" is not (marker only inside a longer word). -/
theorem c6_content_guard_witness :
    sensitive_search ("my password is 1234".toList) = true
    ∧ sensitive_search ("passwordless".toList) = false := by
  constructor
  · have h := c6_content_guard.1 ("my ".toList) (" is 1234".toList)
      ("password".toList) ("password".toList) (by decide) (by decide)
      (by decide) (by decide)
    have e : ("my ".toList) ++ ("password".toList) ++ (" is 1234".toList)
        = "my password is 1234".toList := by decide
    rw [← e]
    exact h
  · apply c6_content_guard.2 ("passwordless".toList)
    decide

/-- C4: `_trim_history` returns `[]` for a non-positive bound; for a
positive bound the result has length `min (length h) n` and is a suffix of
`h` (oldest entries dropped first), and is `h` itself when `h` already
fits the bound. -/
theorem c4_trim_contract (h : List Turn) (n : Int) :
    (n ≤ 0 → trim_history h n = [])
    ∧ (0 < n →
        (trim_history h n).length = min h.length n.toNat
        ∧ List.IsSuffix (trim_history h n) h
        ∧ (h.length ≤ n.toNat → trim_history h n = h)) := by
  constructor
  · intro hn
    simp [trim_history, hn]
  · intro hn
    have hn' : ¬ n ≤ 0 := not_le.mpr hn
    simp only [trim_history, if_neg hn']
    refine ⟨?_, ?_, ?_⟩
    · rw [List.length_drop]
      omega
    · exact List.drop_suffix _ _
    · intro hle
      have h0 : h.length - n.toNat = 0 := by omega
      rw [h0, List.drop_zero]

/-- Witness for C4 at concrete inputs. -/
theorem c4_trim_contract_witness :
    trim_history [turnU1, turnM1] (-1) = []
    ∧ (trim_history [turnU1, turnM1] 1).length = min 2 (Int.toNat 1)
    ∧ (trim_history [turnU1, turnM1] 5 = [turnU1, turnM1]) := by
  refine ⟨(c4_trim_contract [turnU1, turnM1] (-1)).1 (by decide),
          ?_, ?_⟩
  · exact ((c4_trim_contract [turnU1, turnM1] 1).2 (by decide)).1
  · exact ((c4_trim_contract [turnU1, turnM1] 5).2 (by decide)).2.2 (by decide)

/-- C5: `_trim_history` is idempotent at the same bound. -/
theorem c5_trim_idempotent (h : List Turn) (n : Int) :
    trim_history (trim_history h n) n = trim_history h n := by
  by_cases hn : n ≤ 0
  · simp [trim_history, hn]
  · simp only [trim_history, if_neg hn]
    rw [show (h.drop (h.length - n.toNat)).length - n.toNat = 0 from by
          rw [List.length_drop]; omega,
        List.drop_zero]

/-- Config fixture with signature verification enabled and no auth token
configured. -/
def cfgSig : Config := ⟨("k".toList), [], 10, true⟩

/-- Request fixture: body strips to empty. -/
def reqBlank : WebhookRequest := ⟨some ("+1555".toList), some ("  ".toList), []⟩

/-- Request fixture: body contains a standalone sensitive marker. -/
def reqSecret : WebhookRequest :=
  ⟨some ("+1555".toList), some ("my password is 1234".toList), []⟩

/-- C7: with verification enabled, an absent/empty signature header or an
unconfigured shared secret makes the verifier return `false`
unconditionally and the handler answer 403 Forbidden with the store
untouched and no remote call; with the flag disabled, the handler never
answers 403 and its outcome does not depend on the signature header or
the validator's verdict. -/
theorem c7_auth_gate (cfg : Config) (store : Store) (req : WebhookRequest)
    (v : Bool) (g : GeminiResult) :
    (cfg.requireTwilioSignature = true →
      (req.signature = [] ∨ cfg.twilioAuthToken = []) →
      validate_twilio_signature req.signature cfg.twilioAuthToken v = false
      ∧ whatsapp_webhook cfg store req v g
          = ⟨403, ("Forbidden".toList), store, false⟩)
    ∧ (cfg.requireTwilioSignature = false →
      (whatsapp_webhook cfg store req v g).status ≠ 403
      ∧ ∀ sig v', whatsapp_webhook cfg store ⟨req.fromField, req.bodyField, sig⟩ v' g
          = whatsapp_webhook cfg store req v g) := by
  constructor
  · intro hreq hsig
    have hval : validate_twilio_signature req.signature cfg.twilioAuthToken v = false := by
      rcases hsig with h | h <;> simp [validate_twilio_signature, h]
    refine ⟨hval, ?_⟩
    simp [whatsapp_webhook, hreq, hval]
  · intro hreq
    constructor
    · intro h403
      by_cases h2 : (pyStrip (req.bodyField.getD [])).isEmpty
      · simp [whatsapp_webhook, hreq, h2] at h403
      · by_cases h3 : sensitive_search (pyStrip (req.bodyField.getD []))
        · simp [whatsapp_webhook, hreq, h2, h3] at h403
        · cases g with
          | ok t => simp [whatsapp_webhook, hreq, h2, h3] at h403
          | error msg =>
              simp [whatsapp_webhook, hreq, h2, h3,
                    apply_ite HandlerOutcome.status] at h403
    · intro sig v'
      simp [whatsapp_webhook, hreq]

/-- Witness for C7 at concrete inputs. -/
theorem c7_auth_gate_witness :
    whatsapp_webhook cfgSig [] reqHello true (.ok ("x".toList))
      = ⟨403, ("Forbidden".toList), [], false⟩
    ∧ (whatsapp_webhook cfgD [] reqHello false (.ok ("x".toList))).status ≠ 403 := by
  exact ⟨((c7_auth_gate cfgSig [] reqHello true (.ok ("x".toList))).1
            rfl (Or.inl rfl)).2,
         ((c7_auth_gate cfgD [] reqHello false (.ok ("x".toList))).2 rfl).1⟩

/-- C8: once past the auth gate, an inbound text that is empty after
whitespace stripping yields the fixed greeting with no remote call and an
unchanged store — regardless of anything else, so the empty check
precedes the Content Guard — and a non-empty text flagged by the Content
Guard yields the fixed safety message with no remote call and an
unchanged store. -/
theorem c8_input_gates (cfg : Config) (store : Store) (req : WebhookRequest)
    (v : Bool) (g : GeminiResult)
    (hauth : authPasses cfg req v) :
    (pyStrip (req.bodyField.getD []) = [] →
      whatsapp_webhook cfg store req v g = ⟨200, GREETING, store, false⟩)
    ∧ (sensitive_search (pyStrip (req.bodyField.getD [])) = true →
        pyStrip (req.bodyField.getD []) ≠ [] →
      whatsapp_webhook cfg store req v g = ⟨200, SAFETY_MESSAGE, store, false⟩) := by
  have h1 := gate_false_of_authPasses cfg req v hauth
  constructor
  · intro hb
    simp [whatsapp_webhook, h1, hb]
  · intro hs hb
    simp [whatsapp_webhook, h1, hs, hb]

/-- Witness for C8 at concrete inputs. -/
theorem c8_input_gates_witness :
    whatsapp_webhook cfgD [] reqBlank false (.ok ("x".toList))
      = ⟨200, GREETING, [], false⟩
    ∧ whatsapp_webhook cfgD [] reqSecret false (.ok ("x".toList))
      = ⟨200, SAFETY_MESSAGE, [], false⟩ := by
  exact ⟨(c8_input_gates cfgD [] reqBlank false (.ok ("x".toList))
            (Or.inl rfl)).1 (by decide),
         (c8_input_gates cfgD [] reqSecret false (.ok ("x".toList))
            (Or.inl rfl)).2 (by decide) (by decide)⟩

/-- C9: a request with no `Body` form field at all is handled exactly
like one with an explicitly empty body: the fixed greeting is returned,
no remote call is made, the store is unchanged, and the two handler
outcomes are equal. -/
theorem c9_missing_body_equals_empty (cfg : Config) (store : Store)
    (v : Bool) (g : GeminiResult) (fromF : Option (List Char)) (sig : List Char)
    (hauth : authPasses cfg ⟨fromF, none, sig⟩ v) :
    whatsapp_webhook cfg store ⟨fromF, none, sig⟩ v g
      = ⟨200, GREETING, store, false⟩
    ∧ whatsapp_webhook cfg store ⟨fromF, some [], sig⟩ v g
      = whatsapp_webhook cfg store ⟨fromF, none, sig⟩ v g := by
  have h1 := gate_false_of_authPasses cfg ⟨fromF, none, sig⟩ v hauth
  constructor
  · simp [whatsapp_webhook, h1, pyStrip]
  · simp [whatsapp_webhook, h1, pyStrip]

/-- Witness for C9 at concrete inputs. -/
theorem c9_missing_body_equals_empty_witness :
    whatsapp_webhook cfgD [] ⟨some ("+1555".toList), none, []⟩ false
        (.ok ("x".toList))
      = ⟨200, GREETING, [], false⟩ := by
  exact (c9_missing_body_equals_empty cfgD [] false (.ok ("x".toList))
          (some ("+1555".toList)) [] (Or.inl rfl)).1

/-- Config fixture with an odd history cap of 3. -/
def cfgOdd : Config := ⟨("k".toList), ("t".toList), 3, false⟩

/-- Store fixture: one complete user/model pair for the key. -/
def storePair : Store := [(("+1555".toList), [turnU1, turnM1])]

/-- C10: trimming evicts turns one by one, not in pairs: starting from a
history of one complete user/model pair, with cap 3, a successful
exchange stores a history beginning with a model-role turn whose matching
user turn was evicted. -/
theorem c10_odd_cap_orphan_model_turn :
    storeGet (whatsapp_webhook cfgOdd storePair reqHello false
        (.ok ("yo".toList))).store ("+1555".toList)
      = [turnM1, ⟨("user".toList), [("hello".toList)]⟩,
         ⟨("model".toList), [("yo".toList)]⟩]
    ∧ ((storeGet (whatsapp_webhook cfgOdd storePair reqHello false
          (.ok ("yo".toList))).store ("+1555".toList)).head?).map Turn.role
      = some ("model".toList) := by
  constructor
  · decide
  · decide

/-- C1: whenever the remote model call fails (raises), the handler
answers with status 200 and a fixed fallback text — the configuration
variant exactly when the exception message mentions the API key or the
key is unconfigured — and the Session Store, hence every key's stored
history, is left exactly as it was before the request. -/
theorem c1_remote_failure_contained (cfg : Config) (store : Store)
    (req : WebhookRequest) (v : Bool) (msg : List Char)
    (hcall : (whatsapp_webhook cfg store req v (.error msg)).remoteCalled = true) :
    (whatsapp_webhook cfg store req v (.error msg)).store = store
    ∧ (whatsapp_webhook cfg store req v (.error msg)).status = 200
    ∧ (whatsapp_webhook cfg store req v (.error msg)).body =
        (if containsSub msg ("API_KEY".toList) || cfg.googleApiKey.isEmpty
         then CONFIG_ERROR_MESSAGE else FALLBACK_MESSAGE)
    ∧ ∀ K, storeGet (whatsapp_webhook cfg store req v (.error msg)).store K
        = storeGet store K := by
  obtain ⟨h1, h2, h3⟩ := gates_of_remoteCalled cfg store req v (.error msg) hcall
  rw [webhook_error_eq cfg store req v msg h1 h2 h3]
  by_cases hc : (containsSub msg ("API_KEY".toList) || cfg.googleApiKey.isEmpty) = true
  · simp only [if_pos hc]
    simp
  · simp only [if_neg hc]
    simp

/-- Witness for C1 at concrete inputs. -/
theorem c1_remote_failure_contained_witness :
    (whatsapp_webhook cfgD [] reqHello false (.error ("boom".toList))).store = []
    ∧ (whatsapp_webhook cfgD [] reqHello false (.error ("boom".toList))).body
        = FALLBACK_MESSAGE := by
  have h := c1_remote_failure_contained cfgD [] reqHello false ("boom".toList)
    (by decide)
  refine ⟨h.1, ?_⟩
  rw [h.2.2.1]
  decide

/-- C2 counterexample: when the remote call succeeds but the reply text
is empty after stripping, the handler does NOT behave as on a failure —
the reply is not the fallback message, and the Session Store is mutated
(an entry is written for the key). -/
theorem c2_counterexample_empty_reply :
    (whatsapp_webhook cfgD [] reqHello false (.ok ("   ".toList))).body
        ≠ FALLBACK_MESSAGE
    ∧ (whatsapp_webhook cfgD [] reqHello false (.ok ("   ".toList))).store
        ≠ ([] : Store) := by
  constructor
  · decide
  · decide

/-- C2 amended: a successful remote call whose reply text strips to empty
is handled on the ordinary success path: the user turn and an
empty-texted model turn are appended to the prior history, the trimmed
result is stored, and the empty reply text is returned — not the
fallback. -/
theorem c2_amended_empty_reply_is_success (cfg : Config) (store : Store)
    (req : WebhookRequest) (v : Bool) (t : List Char)
    (hauth : authPasses cfg req v)
    (hbody : (pyStrip (req.bodyField.getD [])).isEmpty = false)
    (hsens : sensitive_search (pyStrip (req.bodyField.getD [])) = false)
    (hempty : pyStrip t = []) :
    whatsapp_webhook cfg store req v (.ok t)
      = ⟨200, [],
         storeSet store (req.fromField.getD ("unknown".toList))
           (trim_history
             (storeGet store (req.fromField.getD ("unknown".toList))
               ++ [⟨("user".toList), [pyStrip (req.bodyField.getD [])]⟩,
                   ⟨("model".toList), [[]]⟩])
             cfg.maxHistory),
         true⟩ := by
  rw [webhook_ok_eq cfg store req v t
        (gate_false_of_authPasses cfg req v hauth) hbody hsens, hempty]

/-- Witness for the amended C2 at concrete inputs. -/
theorem c2_amended_empty_reply_is_success_witness :
    whatsapp_webhook cfgD [] reqHello false (.ok ("  ".toList))
      = ⟨200, [],
         [(("+1555".toList),
           [⟨("user".toList), [("hello".toList)]⟩, ⟨("model".toList), [[]]⟩])],
         true⟩ := by
  have h := c2_amended_empty_reply_is_success cfgD [] reqHello false ("  ".toList)
    (Or.inl rfl) (by decide) (by decide) (by decide)
  rw [h]
  decide

/-- C3: a successful exchange stores, under the conversation key, exactly
the prior history with the user turn and the model turn appended and then
trimmed; for a non-negative cap the stored length never exceeds the cap,
and a cap of 0 forces an empty stored history. -/
theorem c3_success_appends_two_and_trims (cfg : Config) (store : Store)
    (req : WebhookRequest) (v : Bool) (t : List Char)
    (hauth : authPasses cfg req v)
    (hbody : (pyStrip (req.bodyField.getD [])).isEmpty = false)
    (hsens : sensitive_search (pyStrip (req.bodyField.getD [])) = false) :
    storeGet (whatsapp_webhook cfg store req v (.ok t)).store
        (req.fromField.getD ("unknown".toList))
      = trim_history
          (storeGet store (req.fromField.getD ("unknown".toList))
            ++ [⟨("user".toList), [pyStrip (req.bodyField.getD [])]⟩,
                ⟨("model".toList), [pyStrip t]⟩])
          cfg.maxHistory
    ∧ (0 ≤ cfg.maxHistory →
        ((storeGet (whatsapp_webhook cfg store req v (.ok t)).store
            (req.fromField.getD ("unknown".toList))).length : Int)
          ≤ cfg.maxHistory)
    ∧ (cfg.maxHistory = 0 →
        storeGet (whatsapp_webhook cfg store req v (.ok t)).store
          (req.fromField.getD ("unknown".toList)) = []) := by
  rw [webhook_ok_eq cfg store req v t
        (gate_false_of_authPasses cfg req v hauth) hbody hsens]
  refine ⟨storeGet_storeSet_self _ _ _, ?_, ?_⟩
  · intro hn
    rw [storeGet_storeSet_self]
    exact trim_history_length_le _ _ hn
  · intro h0
    rw [storeGet_storeSet_self]
    simp [trim_history, h0]

/-- Witness for C3 at concrete inputs. -/
theorem c3_success_appends_two_and_trims_witness :
    storeGet (whatsapp_webhook cfgD [] reqHello false (.ok ("hi there".toList))).store
        ("+1555".toList)
      = [⟨("user".toList), [("hello".toList)]⟩,
         ⟨("model".toList), [("hi there".toList)]⟩] := by
  have h := c3_success_appends_two_and_trims cfgD [] reqHello false
    ("hi there".toList) (Or.inl rfl) (by decide) (by decide)
  rw [show ("+1555".toList)
        = (reqHello.fromField.getD ("unknown".toList)) from by decide, h.1]
  decide
